import Mathlib

/-!
Shallow embedding of the core simulation of the snake_game_cpp repository
(Snake.h/Snake.cpp, Food.h/Food.cpp, Game.h/Game.cpp), together with
theorems settling the specification claims about it.

Modelling conventions:
* `std::deque<Position>` is modelled as `List Position` with the deque's
  front at the head of the list (`push_front` is `::`, `pop_back` is
  `List.dropLast`).
* C++ `int` coordinates are modelled as `Int`.  The segment size and the
  board dimensions are C++ `int`/`GLuint` values that always hold
  non-negative quantities (the segment size defaults to 20 and the board
  dimensions come from the window size), so they are modelled as `Nat`
  and coerced to `Int` inside coordinate arithmetic.
* `std::mt19937` together with `std::uniform_int_distribution<int>(0, n-1)`
  is modelled by an explicit list of draw pairs: each loop iteration of
  `Food::GenerateNewPosition` consumes one pair `(dx, dy)` and reduces it
  into range with `% n` (every value of the distribution is reachable this
  way and no other value is).  An exhausted list models a run of the
  unbounded C++ retry loop that has not yet terminated, so the embedded
  function returns `Option Position` and the game-level operations that
  may regenerate food return `Option Game`.
-/

/-- Position (Snake.h): an integer pair (x, y) with field-wise equality. -/
structure Position where
  x : Int
  y : Int
deriving DecidableEq

/-- Direction (Snake.h): movement direction of the snake. -/
inductive Direction where
  | UP
  | DOWN
  | LEFT
  | RIGHT
  | STOPPED
deriving DecidableEq

/-- Snake (Snake.h): body segments (front of the list = front of the deque
= head of the snake), current and last-moved directions, segment size and
the grow flag. -/
structure Snake where
  body : List Position
  currentDirection : Direction
  lastMovedDirection : Direction
  segmentSize : Nat
  growNextMove : Bool
deriving DecidableEq

/-- Snake::Snake (Snake.cpp lines 13-22): three `push_front` calls build
the initial body; directions start STOPPED and the grow flag cleared. -/
def snakeNew (startX startY : Int) (segSize : Nat) : Snake :=
  let body0 : List Position := []
  let body1 := ⟨startX, startY⟩ :: body0
  let body2 := ⟨startX - (segSize : Int), startY⟩ :: body1
  let body3 := ⟨startX - 2 * (segSize : Int), startY⟩ :: body2
  { body := body3
    currentDirection := Direction.STOPPED
    lastMovedDirection := Direction.STOPPED
    segmentSize := segSize
    growNextMove := false }

/-- The switch statement of Snake::Move (Snake.cpp lines 36-42): offset a
position by one segment size in the given direction (the `default` branch
leaves the position unchanged). -/
def offsetPos (d : Direction) (segSize : Nat) (p : Position) : Position :=
  match d with
  | Direction.UP => ⟨p.x, p.y - (segSize : Int)⟩
  | Direction.DOWN => ⟨p.x, p.y + (segSize : Int)⟩
  | Direction.LEFT => ⟨p.x - (segSize : Int), p.y⟩
  | Direction.RIGHT => ⟨p.x + (segSize : Int), p.y⟩
  | Direction.STOPPED => p

/-- Snake::Move (Snake.cpp lines 30-52).  `body.front()` on an empty deque
is undefined behaviour in C++; that branch (unreachable from any state the
game constructs) leaves the state unchanged in the model. -/
def move (s : Snake) : Snake :=
  if s.currentDirection = Direction.STOPPED then s
  else
    match s.body with
    | [] => s
    | front :: _ =>
      let newHead := offsetPos s.currentDirection s.segmentSize front
      let body1 := newHead :: s.body
      if s.growNextMove then
        { s with body := body1, growNextMove := false,
                 lastMovedDirection := s.currentDirection }
      else
        { s with body := body1.dropLast,
                 lastMovedDirection := s.currentDirection }

/-- Snake::Grow (Snake.cpp lines 57-59): set the grow flag. -/
def grow (s : Snake) : Snake :=
  { s with growNextMove := true }

/-- The four-way reversal test of Snake::SetDirection (Snake.cpp lines
69-72), written as a predicate on (requested, lastMoved). -/
def isOpposite (newDir lastMoved : Direction) : Prop :=
  (newDir = Direction.UP ∧ lastMoved = Direction.DOWN) ∨
  (newDir = Direction.DOWN ∧ lastMoved = Direction.UP) ∨
  (newDir = Direction.LEFT ∧ lastMoved = Direction.RIGHT) ∨
  (newDir = Direction.RIGHT ∧ lastMoved = Direction.LEFT)

instance (a b : Direction) : Decidable (isOpposite a b) := by
  unfold isOpposite
  infer_instance

/-- Snake::SetDirection (Snake.cpp lines 67-92).  The early `return`
fires exactly when the reversal test holds together with the inner guard
`body.size() > 1 && lastMovedDirection != STOPPED`; otherwise the function
falls through to the assignments below the guard. -/
def setDirection (s : Snake) (newDir : Direction) : Snake :=
  if isOpposite newDir s.lastMovedDirection ∧
      1 < s.body.length ∧ s.lastMovedDirection ≠ Direction.STOPPED then
    s
  else
    let lm0 :=
      if s.currentDirection = Direction.STOPPED ∧ s.body.length = 1 then
        Direction.STOPPED
      else s.lastMovedDirection
    let lm1 := if lm0 = Direction.STOPPED then newDir else lm0
    { s with currentDirection := newDir, lastMovedDirection := lm1 }

/-- Snake::GetHeadPosition (Snake.cpp lines 115-121): the front of the
body, or the sentinel (-1, -1) when the body is empty. -/
def getHeadPosition (s : Snake) : Position :=
  match s.body with
  | [] => ⟨-1, -1⟩
  | front :: _ => front

/-- Snake::CheckSelfCollision (Snake.cpp lines 128-140): false for bodies
shorter than 2, otherwise the loop over indices 1..size-1 compares each
segment with the head. -/
def checkSelfCollision (s : Snake) : Bool :=
  if s.body.length < 2 then false
  else
    match s.body with
    | [] => false
    | head :: rest => rest.any fun seg => decide (seg = head)

/-- Food (Food.h): current position, board dimensions and segment size.
The `std::mt19937` member is modelled by the draw-list parameter of
`generateNewPosition`.  The C++ `pos` member is uninitialised until the
first `GenerateNewPosition` call (which always overwrites it); the model
uses (0, 0) as that irrelevant initial value. -/
structure Food where
  pos : Position
  boardWidth : Nat
  boardHeight : Nat
  segmentSize : Nat
deriving DecidableEq

/-- Food::GenerateNewPosition (Food.cpp lines 28-55): rejection sampling
over the grid of `boardWidth / segmentSize` by `boardHeight / segmentSize`
cells; each iteration draws a cell, scales it by the segment size, and
accepts it unless it coincides with a segment of the supplied snake body.
Each loop iteration consumes one draw pair; `none` models a run whose
supplied draws are exhausted before a free cell is hit. -/
def generateNewPosition (f : Food) (snakeBody : List Position) :
    List (Nat × Nat) → Option Position
  | [] => none
  | (dx, dy) :: rest =>
    let candidate : Position :=
      ⟨((dx % (f.boardWidth / f.segmentSize)) * f.segmentSize : Nat),
       ((dy % (f.boardHeight / f.segmentSize)) * f.segmentSize : Nat)⟩
    if candidate ∈ snakeBody then generateNewPosition f snakeBody rest
    else some candidate

/-- GameState (Game.h). -/
inductive GameState where
  | GAME_ACTIVE
  | GAME_MENU
  | GAME_WIN
  | GAME_OVER
deriving DecidableEq

/-- Game (Game.h): the state machine together with its Snake and Food.
The rendering members (VAO, VBO, shader program) and the raw key array
are outside the simulation core; the key array is modelled by the `Keys`
snapshot passed to `processInput`. -/
structure Game where
  State : GameState
  Width : Nat
  Height : Nat
  snake : Snake
  food : Food
deriving DecidableEq

/-- Keys: the logical key flags Game::ProcessInput reads from the `Keys`
array (W and UP are merged into one flag, and so on, since ProcessInput
only ever reads their disjunction). -/
structure Keys where
  up : Bool
  down : Bool
  left : Bool
  right : Bool
  r : Bool
deriving DecidableEq

/-- The wall test of Game::Update (Game.cpp lines 230-237): true when the
head segment does not lie fully inside the board.  The C++ comparison
`head.x + segmentSize > Width` converts the signed sum to `GLuint`; since
the preceding disjunct `head.x < 0` already catches every negative head
coordinate and the segment size is non-negative, the conversion never
changes the value of the whole disjunction, so the test is stated over
`Int` directly. -/
def wallHit (g : Game) (s : Snake) : Prop :=
  (getHeadPosition s).x < 0 ∨
  (getHeadPosition s).x + (s.segmentSize : Int) > (g.Width : Int) ∨
  (getHeadPosition s).y < 0 ∨
  (getHeadPosition s).y + (s.segmentSize : Int) > (g.Height : Int)

instance (g : Game) (s : Snake) : Decidable (wallHit g s) := by
  unfold wallHit
  infer_instance

/-- Game::Update (Game.cpp lines 208-237): no-op unless active; otherwise
move, then eat-check against the post-move head (growing and regenerating
food on a hit), then the self-collision check and the wall check, each of
which sets the state to GAME_OVER. -/
def update (g : Game) (draws : List (Nat × Nat)) : Option Game :=
  if g.State ≠ GameState.GAME_ACTIVE then some g
  else
    let moved := move g.snake
    let ate := getHeadPosition moved = g.food.pos
    let snake2 := if ate then grow moved else moved
    let foodOpt : Option Food :=
      if ate then
        (generateNewPosition g.food snake2.body draws).map
          fun p => { g.food with pos := p }
      else some g.food
    match foodOpt with
    | none => none
    | some food2 =>
      let stateAfterSelf :=
        if checkSelfCollision snake2 then GameState.GAME_OVER else g.State
      let stateAfterWall :=
        if wallHit g snake2 then GameState.GAME_OVER else stateAfterSelf
      some { g with snake := snake2, food := food2, State := stateAfterWall }

/-- The game-object part of Game::Init (Game.cpp lines 75-89): a fresh
snake at (Width/2, Height/2) with the default segment size 20, a fresh
food sized to match, a first food position generated against the fresh
body, and the state set to GAME_ACTIVE.  The shader and vertex-buffer
setup is rendering plumbing outside the core. -/
def initGame (g : Game) (draws : List (Nat × Nat)) : Option Game :=
  let s := snakeNew ((g.Width / 2 : Nat) : Int) ((g.Height / 2 : Nat) : Int) 20
  let f0 : Food :=
    { pos := ⟨0, 0⟩, boardWidth := g.Width, boardHeight := g.Height,
      segmentSize := s.segmentSize }
  match generateNewPosition f0 s.body draws with
  | none => none
  | some p =>
    some { g with snake := s, food := { f0 with pos := p },
                  State := GameState.GAME_ACTIVE }

/-- Game::ResetGame (Game.cpp lines 262-273): discards the old snake and
food and rebuilds both with exactly the lines of Game::Init, then sets the
state back to GAME_ACTIVE. -/
def resetGame (g : Game) (draws : List (Nat × Nat)) : Option Game :=
  let s := snakeNew ((g.Width / 2 : Nat) : Int) ((g.Height / 2 : Nat) : Int) 20
  let f0 : Food :=
    { pos := ⟨0, 0⟩, boardWidth := g.Width, boardHeight := g.Height,
      segmentSize := s.segmentSize }
  match generateNewPosition f0 s.body draws with
  | none => none
  | some p =>
    some { g with snake := s, food := { f0 with pos := p },
                  State := GameState.GAME_ACTIVE }

/-- Game::ProcessInput (Game.cpp lines 187-206): when active, forward each
held directional key in the fixed order UP, DOWN, LEFT, RIGHT; when over,
the R key triggers ResetGame; in every other state input is ignored. -/
def processInput (g : Game) (k : Keys) (draws : List (Nat × Nat)) : Option Game :=
  if g.State = GameState.GAME_ACTIVE then
    let s0 := g.snake
    let s1 := if k.up then setDirection s0 Direction.UP else s0
    let s2 := if k.down then setDirection s1 Direction.DOWN else s1
    let s3 := if k.left then setDirection s2 Direction.LEFT else s2
    let s4 := if k.right then setDirection s3 Direction.RIGHT else s3
    some { g with snake := s4 }
  else if g.State = GameState.GAME_OVER then
    if k.r then resetGame g draws else some g
  else
    some g

/-- A single snake-level operation, for stating trace invariants over
arbitrary call sequences on a Snake object. -/
inductive SnakeOp where
  | setDir (d : Direction)
  | growOp
  | moveOp
deriving DecidableEq

/-- Apply one snake-level operation. -/
def applySnakeOp (s : Snake) (op : SnakeOp) : Snake :=
  match op with
  | SnakeOp.setDir d => setDirection s d
  | SnakeOp.growOp => grow s
  | SnakeOp.moveOp => move s

/-- Apply a sequence of snake-level operations, first element first. -/
def runSnakeOps (s : Snake) (ops : List SnakeOp) : Snake :=
  ops.foldl applySnakeOp s

/-! ## Concrete instances used by witnesses and counterexamples -/

/-- A snake built at (400, 300) with segment size 20, the scenario of the
specification. -/
def exSnake : Snake := snakeNew 400 300 20

/-- The scenario snake after an accepted SetDirection(RIGHT) and one
Move(). -/
def c3Snake : Snake := move (setDirection exSnake Direction.RIGHT)

/-- A snake whose body is empty (structurally expressible, though not
reachable from the constructor). -/
def emptySnake : Snake :=
  { body := [], currentDirection := Direction.STOPPED,
    lastMovedDirection := Direction.STOPPED, segmentSize := 20,
    growNextMove := false }

/-- A snake whose genuine head is at the sentinel coordinate (-1, -1). -/
def sentinelSnake : Snake := { emptySnake with body := [⟨-1, -1⟩] }

/-- The scenario snake after an accepted SetDirection(UP). -/
def c4Snake : Snake := setDirection exSnake Direction.UP

/-- The scenario snake after SetDirection(RIGHT) and one Move(): its head
(380, 300) coincides with its third segment. -/
def c7Snake : Snake := move (setDirection (snakeNew 400 300 20) Direction.RIGHT)

/-- A food object for the 800 x 600 board with segment size 20. -/
def c6Food : Food :=
  { pos := ⟨0, 0⟩, boardWidth := 800, boardHeight := 600, segmentSize := 20 }

/-- An active game on the 800 x 600 board whose snake heads UP and whose
food is away from the snake's path. -/
def c2Game : Game :=
  { State := GameState.GAME_ACTIVE, Width := 800, Height := 600,
    snake := setDirection exSnake Direction.UP,
    food := { pos := ⟨0, 0⟩, boardWidth := 800, boardHeight := 600,
              segmentSize := 20 } }

/-- The game `c2Game` after one Update: only the snake has moved. -/
def c2Game' : Game := { c2Game with snake := move c2Game.snake }

/-- An active game whose food sits exactly at the snake's current head
position (360, 300) before Update is called. -/
def c5Game : Game :=
  { State := GameState.GAME_ACTIVE, Width := 800, Height := 600,
    snake := setDirection exSnake Direction.UP,
    food := { pos := ⟨360, 300⟩, boardWidth := 800, boardHeight := 600,
              segmentSize := 20 } }

/-- The game `c5Game` after one Update: the snake has moved off the food
without eating it. -/
def c5Game' : Game := { c5Game with snake := move c5Game.snake }

/-- An active game whose food sits at (360, 280), the cell the UP-heading
snake moves into on the next Update. -/
def c5EatGame : Game :=
  { c5Game with food := { c5Game.food with pos := ⟨360, 280⟩ } }

/-- The game `c5EatGame` after one Update with draw (0, 0): the snake ate,
the grow flag is set and the food regenerated at (0, 0). -/
def c5EatGameAfter : Game :=
  { c5EatGame with
    snake := grow (move c5EatGame.snake),
    food := { c5EatGame.food with pos := ⟨0, 0⟩ },
    State := GameState.GAME_ACTIVE }

/-- A game in the GAME_OVER state. -/
def c9Game : Game := { c2Game with State := GameState.GAME_OVER }

/-- A key snapshot carrying only the restart key. -/
def c9Keys : Keys :=
  { up := false, down := false, left := false, right := false, r := true }

/-- A key snapshot carrying a directional key but not the restart key. -/
def c9KeysNoR : Keys :=
  { up := true, down := false, left := false, right := false, r := false }

/-- The game produced by resetting `c9Game` with the draw (0, 0). -/
def c9ResetGame : Game :=
  { c9Game with
    snake := snakeNew 400 300 20,
    food := { pos := ⟨0, 0⟩, boardWidth := 800, boardHeight := 600,
              segmentSize := 20 },
    State := GameState.GAME_ACTIVE }

/-! ## Helper lemmas shared by several developments -/

theorem setDirection_body (s : Snake) (d : Direction) :
    (setDirection s d).body = s.body := by
  unfold setDirection
  split <;> rfl

theorem grow_body (s : Snake) : (grow s).body = s.body := rfl

/-! ## C1 -/

/-- C1: evaluation of the Snake constructor at the failing input
Snake(400, 300, 20).  Because all three segments are inserted with
`push_front`, the body, front (= head) to back, is
[(360,300), (380,300), (400,300)]: the head sits at
(startX − 2·segmentSize, startY), not at (startX, startY) as the claim —
and the constructor's own comment — states.  The direction fields and the
grow flag do match the claim. -/
theorem c1_construct_eval :
    (snakeNew 400 300 20).body =
      [⟨360, 300⟩, ⟨380, 300⟩, ⟨400, 300⟩] ∧
    getHeadPosition (snakeNew 400 300 20) = ⟨360, 300⟩ ∧
    getHeadPosition (snakeNew 400 300 20) ≠ ⟨400, 300⟩ ∧
    (snakeNew 400 300 20).currentDirection = Direction.STOPPED ∧
    (snakeNew 400 300 20).lastMovedDirection = Direction.STOPPED ∧
    (snakeNew 400 300 20).growNextMove = false := by
  decide

/-! ## C8 -/

/-- C8 counterexample: on an empty body, GetHeadPosition silently returns
the plain coordinate (-1, -1) — the very same value it returns for a
legitimate snake whose head really is at (-1, -1) — so the invalid state
is not signalled by any distinguished failure result. -/
theorem c8_counterexample :
    getHeadPosition emptySnake = ⟨-1, -1⟩ ∧
    getHeadPosition emptySnake = getHeadPosition sentinelSnake := by
  decide

/-- C8 (amended): GetHeadPosition on an empty body returns the sentinel
coordinate (-1, -1) as an ordinary Position value. -/
theorem c8_sentinel_spec (s : Snake) (h : s.body = []) :
    getHeadPosition s = ⟨-1, -1⟩ := by
  unfold getHeadPosition
  rw [h]

/-- C8 witness: the amended statement instantiated at the empty-bodied
snake. -/
theorem c8_sentinel_spec_witness :
    emptySnake.body = [] ∧ getHeadPosition emptySnake = ⟨-1, -1⟩ :=
  ⟨rfl, c8_sentinel_spec emptySnake rfl⟩

/-! ## C3 -/

/-- C3 counterexample: after SetDirection(RIGHT) and one Move() the snake
has lastMovedDirection = RIGHT; calling SetDirection(RIGHT) again leaves
currentDirection unchanged even though the requested direction is not the
opposite of lastMovedDirection — refuting the claim's "if and only if". -/
theorem c3_counterexample :
    (setDirection c3Snake Direction.RIGHT).currentDirection =
      c3Snake.currentDirection ∧
    ¬(isOpposite Direction.RIGHT c3Snake.lastMovedDirection ∧
      1 < c3Snake.body.length ∧
      c3Snake.lastMovedDirection ≠ Direction.STOPPED) := by
  decide

/-- C3 (amended): SetDirection(requested) leaves the whole state — in
particular currentDirection — unchanged whenever requested is the exact
opposite of lastMovedDirection, the body has more than one segment and
lastMovedDirection ≠ STOPPED; in every other case it sets
currentDirection = requested (which coincides with the old value exactly
when requested already equals it), leaves the body, segment size and grow
flag untouched, and when lastMovedDirection was STOPPED it additionally
sets lastMovedDirection = requested; consequently when
lastMovedDirection = STOPPED every requested value is accepted. -/
theorem c3_setDirection_spec (s : Snake) (d : Direction) :
    (isOpposite d s.lastMovedDirection ∧ 1 < s.body.length ∧
        s.lastMovedDirection ≠ Direction.STOPPED →
      setDirection s d = s) ∧
    (¬(isOpposite d s.lastMovedDirection ∧ 1 < s.body.length ∧
        s.lastMovedDirection ≠ Direction.STOPPED) →
      (setDirection s d).currentDirection = d ∧
      (setDirection s d).body = s.body ∧
      (setDirection s d).segmentSize = s.segmentSize ∧
      (setDirection s d).growNextMove = s.growNextMove ∧
      (s.lastMovedDirection = Direction.STOPPED →
        (setDirection s d).lastMovedDirection = d)) ∧
    (s.lastMovedDirection = Direction.STOPPED →
      (setDirection s d).currentDirection = d) := by
  by_cases hrej : isOpposite d s.lastMovedDirection ∧ 1 < s.body.length ∧
      s.lastMovedDirection ≠ Direction.STOPPED
  · refine ⟨fun _ => ?_, fun h => absurd hrej h, fun hstop => absurd hstop hrej.2.2⟩
    unfold setDirection
    rw [if_pos hrej]
  · refine ⟨fun h => absurd h hrej, fun _ => ⟨?_, ?_, ?_, ?_, fun hstop => ?_⟩,
      fun hstop => ?_⟩ <;> unfold setDirection <;> rw [if_neg hrej]
    all_goals
      by_cases hc : s.currentDirection = Direction.STOPPED ∧ s.body.length = 1 <;>
        simp [hc, hstop]

/-- C3 witness: the amended statement instantiated at the snake that moved
RIGHT, with the opposite request LEFT: the request is rejected and the
state is unchanged. -/
theorem c3_setDirection_spec_witness :
    (isOpposite Direction.LEFT c3Snake.lastMovedDirection ∧
      1 < c3Snake.body.length ∧
      c3Snake.lastMovedDirection ≠ Direction.STOPPED) ∧
    setDirection c3Snake Direction.LEFT = c3Snake :=
  ⟨by decide, (c3_setDirection_spec c3Snake Direction.LEFT).1 (by decide)⟩

/-! ## C4 -/

theorem move_stopped (s : Snake) (h : s.currentDirection = Direction.STOPPED) :
    move s = s := by
  unfold move
  rw [if_pos h]

theorem move_cons (s : Snake) (hdir : s.currentDirection ≠ Direction.STOPPED)
    (front : Position) (rest : List Position) (hbody : s.body = front :: rest) :
    move s =
      (if s.growNextMove then
        { s with
            body := offsetPos s.currentDirection s.segmentSize front :: s.body,
            growNextMove := false,
            lastMovedDirection := s.currentDirection }
      else
        { s with
            body :=
              (offsetPos s.currentDirection s.segmentSize front :: s.body).dropLast,
            lastMovedDirection := s.currentDirection }) := by
  obtain ⟨b, cd, lm, sz, gn⟩ := s
  simp only at hdir hbody ⊢
  subst hbody
  unfold move
  rw [if_neg hdir]

theorem move_step_facts (s : Snake) (hdir : s.currentDirection ≠ Direction.STOPPED)
    (hgrow : s.growNextMove = false) (hbody : s.body ≠ []) :
    (move s).currentDirection = s.currentDirection ∧
    (move s).growNextMove = false ∧
    (move s).segmentSize = s.segmentSize ∧
    (move s).body ≠ [] ∧
    (move s).body.length = s.body.length ∧
    getHeadPosition (move s) =
      offsetPos s.currentDirection s.segmentSize (getHeadPosition s) := by
  obtain ⟨b, cd, lm, sz, gn⟩ := s
  simp only at hdir hgrow hbody ⊢
  subst hgrow
  obtain ⟨front, rest, hb⟩ := List.exists_cons_of_ne_nil hbody
  subst hb
  unfold move getHeadPosition
  rw [if_neg hdir]
  refine ⟨rfl, rfl, rfl, by simp, by simp, rfl⟩

theorem move_iter_facts (s : Snake) (hdir : s.currentDirection ≠ Direction.STOPPED)
    (hgrow : s.growNextMove = false) (hbody : s.body ≠ []) (n : Nat) :
    ((move^[n]) s).currentDirection = s.currentDirection ∧
    ((move^[n]) s).growNextMove = false ∧
    ((move^[n]) s).segmentSize = s.segmentSize ∧
    ((move^[n]) s).body ≠ [] ∧
    ((move^[n]) s).body.length = s.body.length := by
  induction n with
  | zero => exact ⟨rfl, hgrow, rfl, hbody, rfl⟩
  | succ n ih =>
    obtain ⟨h1, h2, h3, h4, h5⟩ := ih
    rw [Function.iterate_succ_apply']
    have hd : ((move^[n]) s).currentDirection ≠ Direction.STOPPED := by
      rw [h1]; exact hdir
    have hstep := move_step_facts ((move^[n]) s) hd h2 h4
    exact ⟨hstep.1.trans h1, hstep.2.1, hstep.2.2.1.trans h3, hstep.2.2.2.1,
      hstep.2.2.2.2.1.trans h5⟩

/-- C4: Move() is a no-op when currentDirection = STOPPED; otherwise it
pushes the old front offset by one segmentSize in currentDirection as the
new front, keeps the tail and clears the flag when growNextMove was set
(length + 1) and drops the back element otherwise (length unchanged), and
sets lastMovedDirection = currentDirection; consequently, iterating Move
with a fixed non-STOPPED direction and no pending growth keeps the body
length invariant and advances the head by exactly one segmentSize along
that direction at every step. -/
theorem c4_move_spec (s : Snake) :
    (s.currentDirection = Direction.STOPPED → move s = s) ∧
    (s.currentDirection ≠ Direction.STOPPED →
      ∀ front rest, s.body = front :: rest →
      (move s).body =
        (if s.growNextMove then
          offsetPos s.currentDirection s.segmentSize front :: s.body
        else
          (offsetPos s.currentDirection s.segmentSize front :: s.body).dropLast) ∧
      (move s).body.length =
        (if s.growNextMove then s.body.length + 1 else s.body.length) ∧
      (move s).growNextMove = false ∧
      (move s).lastMovedDirection = s.currentDirection ∧
      (move s).currentDirection = s.currentDirection) ∧
    (s.currentDirection ≠ Direction.STOPPED → s.growNextMove = false →
      s.body ≠ [] → ∀ n : Nat,
      ((move^[n]) s).body.length = s.body.length ∧
      getHeadPosition ((move^[n + 1]) s) =
        offsetPos s.currentDirection s.segmentSize
          (getHeadPosition ((move^[n]) s))) := by
  refine ⟨move_stopped s, ?_, ?_⟩
  · intro hdir front rest hbody
    rw [move_cons s hdir front rest hbody]
    obtain ⟨b, cd, lm, sz, gn⟩ := s
    simp only at hdir hbody ⊢
    subst hbody
    cases gn
    · refine ⟨rfl, ?_, rfl, rfl, rfl⟩
      simp
    · refine ⟨rfl, ?_, rfl, rfl, rfl⟩
      simp
  · intro hdir hgrow hbody n
    obtain ⟨h1, h2, h3, h4, h5⟩ := move_iter_facts s hdir hgrow hbody n
    refine ⟨h5, ?_⟩
    have hd : ((move^[n]) s).currentDirection ≠ Direction.STOPPED := by
      rw [h1]; exact hdir
    have hstep := move_step_facts ((move^[n]) s) hd h2 h4
    rw [Function.iterate_succ_apply', hstep.2.2.2.2.2, h1, h3]

/-- C4 witness: the trajectory statement instantiated at the snake heading
UP, at step 0. -/
theorem c4_move_spec_witness :
    (c4Snake.currentDirection ≠ Direction.STOPPED ∧
      c4Snake.growNextMove = false ∧ c4Snake.body ≠ []) ∧
    ((move^[0]) c4Snake).body.length = c4Snake.body.length ∧
    getHeadPosition ((move^[0 + 1]) c4Snake) =
      offsetPos c4Snake.currentDirection c4Snake.segmentSize
        (getHeadPosition ((move^[0]) c4Snake)) :=
  ⟨⟨by decide, by decide, by decide⟩,
    (c4_move_spec c4Snake).2.2 (by decide) (by decide) (by decide) 0⟩

/-! ## C10 -/

theorem applySnakeOp_length_le (s : Snake) (op : SnakeOp) (h : s.body ≠ []) :
    s.body.length ≤ (applySnakeOp s op).body.length ∧
    (applySnakeOp s op).body.length ≤ s.body.length + 1 := by
  cases op with
  | setDir d =>
    simp only [applySnakeOp]
    rw [setDirection_body]
    omega
  | growOp =>
    simp only [applySnakeOp]
    rw [grow_body]
    omega
  | moveOp =>
    simp only [applySnakeOp]
    by_cases hd : s.currentDirection = Direction.STOPPED
    · rw [move_stopped s hd]
      omega
    · obtain ⟨front, rest, hb⟩ := List.exists_cons_of_ne_nil h
      rw [move_cons s hd front rest hb]
      cases hgn : s.growNextMove
      · simp only [Bool.false_eq_true, if_false]
        simp [hb]
      · simp only [if_true]
        simp [hb]

theorem runSnakeOps_append_one (s : Snake) (ops : List SnakeOp) (op : SnakeOp) :
    runSnakeOps s (ops ++ [op]) = applySnakeOp (runSnakeOps s ops) op := by
  unfold runSnakeOps
  rw [List.foldl_append]
  rfl

theorem runSnakeOps_length_ge (s : Snake) (ops : List SnakeOp)
    (h : 3 ≤ s.body.length) : 3 ≤ (runSnakeOps s ops).body.length := by
  induction ops generalizing s with
  | nil => exact h
  | cons op rest ih =>
    have hne : s.body ≠ [] := by
      intro hnil
      rw [hnil] at h
      simp at h
    have hstep := applySnakeOp_length_le s op hne
    have : runSnakeOps s (op :: rest) = runSnakeOps (applySnakeOp s op) rest := rfl
    rw [this]
    exact ih (applySnakeOp s op) (le_trans h hstep.1)

/-- C10: starting from any freshly constructed snake, every sequence of
SetDirection, Grow and Move calls keeps the body length at least 3 and the
body non-empty; each single further operation changes the length by at
most +1 and never decreases it, and SetDirection and Grow leave the body
(hence its length) entirely unchanged. -/
theorem c10_body_length_invariant (startX startY : Int) (segSize : Nat)
    (ops : List SnakeOp) :
    3 ≤ (runSnakeOps (snakeNew startX startY segSize) ops).body.length ∧
    (runSnakeOps (snakeNew startX startY segSize) ops).body ≠ [] ∧
    (∀ op : SnakeOp,
      (runSnakeOps (snakeNew startX startY segSize) ops).body.length ≤
        (runSnakeOps (snakeNew startX startY segSize) (ops ++ [op])).body.length ∧
      (runSnakeOps (snakeNew startX startY segSize) (ops ++ [op])).body.length ≤
        (runSnakeOps (snakeNew startX startY segSize) ops).body.length + 1) ∧
    (∀ (t : Snake) (d : Direction), (setDirection t d).body = t.body) ∧
    (∀ t : Snake, (grow t).body = t.body) := by
  have h3 : 3 ≤ (snakeNew startX startY segSize).body.length := by
    simp [snakeNew]
  have hrun := runSnakeOps_length_ge (snakeNew startX startY segSize) ops h3
  have hne : (runSnakeOps (snakeNew startX startY segSize) ops).body ≠ [] := by
    intro hnil
    rw [hnil] at hrun
    simp at hrun
  refine ⟨hrun, hne, fun op => ?_, setDirection_body, grow_body⟩
  rw [runSnakeOps_append_one]
  exact applySnakeOp_length_le _ op hne

/-! ## C7 -/

/-- C7: CheckSelfCollision returns false when the body has fewer than two
segments, and for bodies of length at least two it returns true exactly
when the head position equals the position of some segment at an index
greater than or equal to 1. -/
theorem c7_selfCollision_spec (s : Snake) :
    (s.body.length < 2 → checkSelfCollision s = false) ∧
    (2 ≤ s.body.length →
      (checkSelfCollision s = true ↔
        ∃ i, ∃ h : i < s.body.length, 1 ≤ i ∧
          s.body.get ⟨i, h⟩ = getHeadPosition s)) := by
  constructor
  · intro h
    unfold checkSelfCollision
    rw [if_pos h]
  · intro h2
    obtain ⟨b, cd, lm, sz, gn⟩ := s
    simp only at h2 ⊢
    cases b with
    | nil => simp at h2
    | cons a rest =>
      unfold checkSelfCollision getHeadPosition
      rw [if_neg (by dsimp only; omega)]
      simp only
      rw [List.any_eq_true]
      constructor
      · rintro ⟨x, hx, hdec⟩
        have hxa : x = a := of_decide_eq_true hdec
        subst hxa
        obtain ⟨⟨j, hj⟩, hget⟩ := List.mem_iff_get.mp hx
        exact ⟨j + 1, by simpa using Nat.succ_lt_succ hj, by omega, hget⟩
      · rintro ⟨i, hi, h1i, hget⟩
        cases i with
        | zero => omega
        | succ j =>
          have hj : j < rest.length := by simpa using hi
          exact ⟨rest.get ⟨j, hj⟩, List.get_mem rest j hj, decide_eq_true hget⟩

/-- C7 witness: the snake that moved RIGHT out of construction has its
head on its own third segment, and the characterisation certifies the
collision at index 2. -/
theorem c7_selfCollision_spec_witness :
    2 ≤ c7Snake.body.length ∧ checkSelfCollision c7Snake = true :=
  ⟨by decide, ((c7_selfCollision_spec c7Snake).2 (by decide)).mpr
    ⟨2, by decide, by decide, by decide⟩⟩

/-! ## C6 -/

theorem generate_some_not_mem (f : Food) (snakeBody : List Position) :
    ∀ draws p, generateNewPosition f snakeBody draws = some p →
      p ∉ snakeBody := by
  intro draws
  induction draws with
  | nil =>
    intro p h
    simp [generateNewPosition] at h
  | cons d rest ih =>
    intro p h
    obtain ⟨dx, dy⟩ := d
    simp only [generateNewPosition] at h
    split at h
    · exact ih p h
    · rename_i hnotmem
      obtain rfl : _ = p := Option.some.inj h
      exact hnotmem

theorem generate_some_shape (f : Food) (snakeBody : List Position)
    (hW : 0 < f.boardWidth / f.segmentSize)
    (hH : 0 < f.boardHeight / f.segmentSize) :
    ∀ draws p, generateNewPosition f snakeBody draws = some p →
      ∃ a b : Nat, a < f.boardWidth / f.segmentSize ∧
        b < f.boardHeight / f.segmentSize ∧
        p = ⟨((a * f.segmentSize : Nat) : Int),
             ((b * f.segmentSize : Nat) : Int)⟩ := by
  intro draws
  induction draws with
  | nil =>
    intro p h
    simp [generateNewPosition] at h
  | cons d rest ih =>
    intro p h
    obtain ⟨dx, dy⟩ := d
    simp only [generateNewPosition] at h
    split at h
    · exact ih p h
    · obtain rfl : _ = p := Option.some.inj h
      exact ⟨dx % (f.boardWidth / f.segmentSize),
        dy % (f.boardHeight / f.segmentSize),
        Nat.mod_lt _ hW, Nat.mod_lt _ hH, rfl⟩

/-- C6: whenever GenerateNewPosition returns (which it does, for example,
on any draw hitting a free cell, as the first conjunct shows for a given
free cell), the stored position has both coordinates non-negative
multiples of segmentSize, lies within the board grid, and is distinct
from every segment of the snake body supplied at call time. -/
theorem c6_generate_spec (f : Food) (snakeBody : List Position)
    (hseg : 0 < f.segmentSize) (hWs : f.segmentSize ≤ f.boardWidth)
    (hHs : f.segmentSize ≤ f.boardHeight) (cx cy : Nat)
    (hcx : cx < f.boardWidth / f.segmentSize)
    (hcy : cy < f.boardHeight / f.segmentSize)
    (hfree : (⟨((cx * f.segmentSize : Nat) : Int),
        ((cy * f.segmentSize : Nat) : Int)⟩ : Position) ∉ snakeBody) :
    generateNewPosition f snakeBody [(cx, cy)] =
      some ⟨((cx * f.segmentSize : Nat) : Int),
            ((cy * f.segmentSize : Nat) : Int)⟩ ∧
    (∀ draws p, generateNewPosition f snakeBody draws = some p →
      (∃ a : Nat, p.x = ((a * f.segmentSize : Nat) : Int)) ∧
      (∃ b : Nat, p.y = ((b * f.segmentSize : Nat) : Int)) ∧
      0 ≤ p.x ∧ p.x ≤ (f.boardWidth : Int) - (f.segmentSize : Int) ∧
      0 ≤ p.y ∧ p.y ≤ (f.boardHeight : Int) - (f.segmentSize : Int) ∧
      p ∉ snakeBody) := by
  have hW : 0 < f.boardWidth / f.segmentSize := Nat.div_pos hWs hseg
  have hH : 0 < f.boardHeight / f.segmentSize := Nat.div_pos hHs hseg
  constructor
  · simp only [generateNewPosition]
    rw [Nat.mod_eq_of_lt hcx, Nat.mod_eq_of_lt hcy, if_neg hfree]
  · intro draws p h
    obtain ⟨a, b, ha, hb, rfl⟩ := generate_some_shape f snakeBody hW hH draws p h
    have hxb : a * f.segmentSize + f.segmentSize ≤ f.boardWidth := by
      calc a * f.segmentSize + f.segmentSize
          = (a + 1) * f.segmentSize := by ring
        _ ≤ (f.boardWidth / f.segmentSize) * f.segmentSize :=
            Nat.mul_le_mul_right _ ha
        _ ≤ f.boardWidth := Nat.div_mul_le_self _ _
    have hyb : b * f.segmentSize + f.segmentSize ≤ f.boardHeight := by
      calc b * f.segmentSize + f.segmentSize
          = (b + 1) * f.segmentSize := by ring
        _ ≤ (f.boardHeight / f.segmentSize) * f.segmentSize :=
            Nat.mul_le_mul_right _ hb
        _ ≤ f.boardHeight := Nat.div_mul_le_self _ _
    refine ⟨⟨a, rfl⟩, ⟨b, rfl⟩, Int.natCast_nonneg _, ?_, Int.natCast_nonneg _, ?_,
      generate_some_not_mem f snakeBody draws _ h⟩
    · have := hxb
      dsimp only
      omega
    · have := hyb
      dsimp only
      omega

/-- C6 witness: the generation statement instantiated at the 800 x 600
board with the body occupying only cell (0, 0) and the draw (1, 0). -/
theorem c6_generate_spec_witness :
    (0 < c6Food.segmentSize ∧ c6Food.segmentSize ≤ c6Food.boardWidth ∧
      c6Food.segmentSize ≤ c6Food.boardHeight ∧
      1 < c6Food.boardWidth / c6Food.segmentSize ∧
      0 < c6Food.boardHeight / c6Food.segmentSize ∧
      (⟨((1 * c6Food.segmentSize : Nat) : Int),
        ((0 * c6Food.segmentSize : Nat) : Int)⟩ : Position) ∉
        ([⟨0, 0⟩] : List Position)) ∧
    generateNewPosition c6Food [⟨0, 0⟩] [(1, 0)] =
      some ⟨((1 * c6Food.segmentSize : Nat) : Int),
            ((0 * c6Food.segmentSize : Nat) : Int)⟩ :=
  ⟨by decide, (c6_generate_spec c6Food [⟨0, 0⟩] (by decide) (by decide)
    (by decide) 1 0 (by decide) (by decide) (by decide)).1⟩

/-! ## C2 -/

theorem checkSelfCollision_grow (s : Snake) :
    checkSelfCollision (grow s) = checkSelfCollision s := rfl

theorem wallHit_grow (g : Game) (s : Snake) :
    wallHit g (grow s) = wallHit g s := rfl

theorem update_not_active (g : Game) (draws : List (Nat × Nat))
    (h : g.State ≠ GameState.GAME_ACTIVE) : update g draws = some g := by
  unfold update
  rw [if_pos h]

/-- C2: Update is a no-op whenever the state differs from GAME_ACTIVE;
when active it first moves the snake, then — comparing the food against
the post-move head — grows the snake and regenerates the food on a hit,
and finally evaluates both the self-collision check and the wall check on
the post-move snake, ending in GAME_OVER exactly when at least one of the
two fires. -/
theorem c2_update_spec (g : Game) (draws : List (Nat × Nat)) :
    (g.State ≠ GameState.GAME_ACTIVE → update g draws = some g) ∧
    (g.State = GameState.GAME_ACTIVE → ∀ g', update g draws = some g' →
      (getHeadPosition (move g.snake) = g.food.pos →
        g'.snake = grow (move g.snake) ∧
        generateNewPosition g.food (grow (move g.snake)).body draws =
          some g'.food.pos) ∧
      (getHeadPosition (move g.snake) ≠ g.food.pos →
        g'.snake = move g.snake ∧ g'.food = g.food) ∧
      (g'.State = GameState.GAME_OVER ↔
        (checkSelfCollision (move g.snake) = true ∨ wallHit g (move g.snake))) ∧
      (g'.State = GameState.GAME_OVER ∨ g'.State = GameState.GAME_ACTIVE)) := by
  refine ⟨update_not_active g draws, ?_⟩
  intro hA g' hg'
  unfold update at hg'
  rw [if_neg (by simp [hA])] at hg'
  by_cases hate : getHeadPosition (move g.snake) = g.food.pos
  · simp only [hate, if_pos rfl, ite_true] at hg'
    cases hgen : generateNewPosition g.food (grow (move g.snake)).body draws with
    | none =>
      rw [hgen] at hg'
      simp at hg'
    | some p =>
      rw [hgen] at hg'
      simp only [Option.map_some'] at hg'
      obtain rfl : _ = g' := Option.some.inj hg'
      refine ⟨fun _ => ⟨rfl, rfl⟩, fun h => absurd hate h, ?_, ?_⟩
      · dsimp only
        simp only [wallHit_grow, checkSelfCollision_grow]
        by_cases hw : wallHit g (move g.snake) <;>
          by_cases hc : checkSelfCollision (move g.snake) = true <;>
          simp [hw, hc, hA]
      · dsimp only
        simp only [wallHit_grow, checkSelfCollision_grow]
        by_cases hw : wallHit g (move g.snake) <;>
          by_cases hc : checkSelfCollision (move g.snake) = true <;>
          simp [hw, hc, hA]
  · simp only [hate, if_neg hate, ite_false] at hg'
    obtain rfl : _ = g' := Option.some.inj hg'
    refine ⟨fun h => absurd h hate, fun _ => ⟨rfl, rfl⟩, ?_, ?_⟩
    · dsimp only
      by_cases hw : wallHit g (move g.snake) <;>
        by_cases hc : checkSelfCollision (move g.snake) = true <;>
        simp [hw, hc, hA]
    · dsimp only
      by_cases hw : wallHit g (move g.snake) <;>
        by_cases hc : checkSelfCollision (move g.snake) = true <;>
        simp [hw, hc, hA]

/-- C2 witness: the characterisation instantiated at a concrete active
game whose Update neither eats nor ends the game. -/
theorem c2_update_spec_witness :
    c2Game.State = GameState.GAME_ACTIVE ∧
    update c2Game [] = some c2Game' ∧
    (c2Game'.State = GameState.GAME_OVER ↔
      (checkSelfCollision (move c2Game.snake) = true ∨
        wallHit c2Game (move c2Game.snake))) := by
  refine ⟨rfl, by decide, ?_⟩
  exact ((c2_update_spec c2Game []).2 rfl c2Game' (by decide)).2.2.1

/-! ## C5 -/

/-- C5 counterexample: in `c5Game` the food sits exactly at the snake's
current head position (360, 300) before Update is called, the game is
active, yet a single Update leaves the body length at 3 instead of
increasing it to 4: Update moves the snake first, so food lying at the
pre-update head position is never eaten on that tick. -/
theorem c5_counterexample :
    c5Game.State = GameState.GAME_ACTIVE ∧
    c5Game.food.pos = getHeadPosition c5Game.snake ∧
    c5Game.snake.body.length = 3 ∧
    update c5Game [] = some c5Game' ∧
    c5Game'.snake.body.length = 3 := by
  decide

/-- C5 (amended): in an active game, when the food coincides with the head
position after the Move step of Update (the cell the snake moves into) and
no growth is already pending, a single successful Update sets the grow
flag — so the length increase materialises only at the next Move — leaves
the body length unchanged on this tick, and regenerates the food at a
position disjoint from every segment of the post-move body. -/
theorem c5_eat_spec (g : Game) (draws : List (Nat × Nat)) (g' : Game)
    (hA : g.State = GameState.GAME_ACTIVE)
    (heat : getHeadPosition (move g.snake) = g.food.pos)
    (hgrow : g.snake.growNextMove = false) (hbody : g.snake.body ≠ [])
    (hrun : update g draws = some g') :
    g'.snake.growNextMove = true ∧
    g'.snake.body.length = g.snake.body.length ∧
    g'.food.pos ∉ g'.snake.body := by
  unfold update at hrun
  rw [if_neg (by simp [hA])] at hrun
  simp only [heat, if_pos rfl, ite_true] at hrun
  cases hgen : generateNewPosition g.food (grow (move g.snake)).body draws with
  | none =>
    rw [hgen] at hrun
    simp at hrun
  | some p =>
    rw [hgen] at hrun
    simp only [Option.map_some'] at hrun
    obtain rfl : _ = g' := Option.some.inj hrun
    refine ⟨rfl, ?_, ?_⟩
    · dsimp only
      rw [grow_body]
      by_cases hd : g.snake.currentDirection = Direction.STOPPED
      · rw [move_stopped _ hd]
      · exact (move_step_facts g.snake hd hgrow hbody).2.2.2.2.1
    · dsimp only
      rw [grow_body]
      have := generate_some_not_mem g.food (grow (move g.snake)).body draws p hgen
      rw [grow_body] at this
      exact this

/-- C5 witness: the amended statement instantiated at the game whose food
is at (360, 280), the cell the UP-heading snake enters, with draw (0, 0). -/
theorem c5_eat_spec_witness :
    (c5EatGame.State = GameState.GAME_ACTIVE ∧
      getHeadPosition (move c5EatGame.snake) = c5EatGame.food.pos ∧
      c5EatGame.snake.growNextMove = false ∧ c5EatGame.snake.body ≠ [] ∧
      update c5EatGame [(0, 0)] = some c5EatGameAfter) ∧
    c5EatGameAfter.snake.growNextMove = true ∧
    c5EatGameAfter.snake.body.length = c5EatGame.snake.body.length ∧
    c5EatGameAfter.food.pos ∉ c5EatGameAfter.snake.body :=
  ⟨⟨rfl, by decide, by decide, by decide, by decide⟩,
    c5_eat_spec c5EatGame [(0, 0)] c5EatGameAfter rfl (by decide) (by decide)
      (by decide) (by decide)⟩

/-! ## C9 -/

/-- C9: once the state is GAME_OVER it stays GAME_OVER under every Update
and under every ProcessInput whose snapshot does not carry the restart
key; with the restart key ProcessInput performs exactly ResetGame, which
rebuilds the snake and the food precisely as Init does (fresh snake
constructed at (Width/2, Height/2) with segment size 20, fresh food
generated against the fresh body) and sets the state back to GAME_ACTIVE;
no ProcessInput without the restart key leaves GAME_OVER. -/
theorem c9_over_spec (g : Game) (k : Keys) (draws : List (Nat × Nat))
    (hover : g.State = GameState.GAME_OVER) :
    update g draws = some g ∧
    (k.r = false → processInput g k draws = some g) ∧
    (k.r = true → processInput g k draws = resetGame g draws) ∧
    resetGame g draws = initGame g draws ∧
    (∀ g', resetGame g draws = some g' →
      g'.State = GameState.GAME_ACTIVE ∧
      g'.snake =
        snakeNew ((g.Width / 2 : Nat) : Int) ((g.Height / 2 : Nat) : Int) 20 ∧
      g'.snake.body.length = 3 ∧
      g'.food.pos ∉ g'.snake.body ∧
      g'.Width = g.Width ∧ g'.Height = g.Height) ∧
    (∀ g', processInput g k draws = some g' →
      g'.State ≠ GameState.GAME_OVER → k.r = true) := by
  have hnact : g.State ≠ GameState.GAME_ACTIVE := by simp [hover]
  refine ⟨update_not_active g draws hnact, ?_, ?_, rfl, ?_, ?_⟩
  · intro hr
    unfold processInput
    rw [if_neg hnact, if_pos hover, hr]
    simp
  · intro hr
    unfold processInput
    rw [if_neg hnact, if_pos hover, hr]
    simp
  · intro g' hreset
    unfold resetGame at hreset
    simp only at hreset
    cases hgen : generateNewPosition
        { pos := ⟨0, 0⟩, boardWidth := g.Width, boardHeight := g.Height,
          segmentSize :=
            (snakeNew ((g.Width / 2 : Nat) : Int) ((g.Height / 2 : Nat) : Int)
              20).segmentSize }
        (snakeNew ((g.Width / 2 : Nat) : Int) ((g.Height / 2 : Nat) : Int)
          20).body draws with
    | none =>
      rw [hgen] at hreset
      simp at hreset
    | some p =>
      rw [hgen] at hreset
      obtain rfl : _ = g' := Option.some.inj hreset
      refine ⟨rfl, rfl, by simp [snakeNew], ?_, rfl, rfl⟩
      dsimp only
      exact generate_some_not_mem _ _ draws p hgen
  · intro g' hpi hne
    cases hr : k.r with
    | true => rfl
    | false =>
      unfold processInput at hpi
      rw [if_neg hnact, if_pos hover, hr] at hpi
      simp at hpi
      obtain rfl : g = g' := hpi
      rw [hover] at hne
      exact absurd rfl hne

/-- C9 witness: the statement instantiated at a concrete GAME_OVER game,
a restart key snapshot and the draw (0, 0), producing the freshly reset
game. -/
theorem c9_over_spec_witness :
    c9Game.State = GameState.GAME_OVER ∧
    update c9Game [(0, 0)] = some c9Game ∧
    processInput c9Game c9Keys [(0, 0)] = resetGame c9Game [(0, 0)] ∧
    processInput c9Game c9KeysNoR [(0, 0)] = some c9Game ∧
    resetGame c9Game [(0, 0)] = some c9ResetGame ∧
    c9ResetGame.State = GameState.GAME_ACTIVE ∧
    c9ResetGame.snake.body.length = 3 := by
  have h := c9_over_spec c9Game c9Keys [(0, 0)] rfl
  have h2 := c9_over_spec c9Game c9KeysNoR [(0, 0)] rfl
  refine ⟨rfl, h.1, h.2.2.1 rfl, h2.2.1 rfl, by decide, ?_, ?_⟩
  · exact (h.2.2.2.2.1 c9ResetGame (by decide)).1
  · exact (h.2.2.2.2.1 c9ResetGame (by decide)).2.2.1
